import Mathlib

/-!
Verification development for the shelter-route safety core of the
derech-tzlecha repository: the spatial index over shelter points
(`ShelterSpatialIndex` in the spatial module), the route sampler and
safety scorer (`calculateRouteMetrics`, `calculateCombinedScore` in the
routing module), and the shared data model (`Shelter`, `RouteMetrics`).

Modelling conventions:
* JS numbers that stay finite are modelled as `ℚ` (coordinates, radii,
  weights) so that concrete queries evaluate by `decide`; values that may
  be `Infinity` (per-sample shelter distances) are modelled as `WithTop`.
* The haversine distance is real-valued (trigonometric); the spatial-index
  and scoring functions are therefore parametrised by the distance
  function `d` over an arbitrary linear-ordered field, and the concrete
  `haversineDistance : … → ℝ` from the source instantiates it.
* External turf.js geometry kernels (`turf.length`/`turf.along` segment
  distance, `turf.pointToLineDistance` per-segment distance) are
  parameters of the functions that call them; the repository's own
  control flow around them is modelled exactly.
* The R-tree (`rbush`) is an indexing structure whose `search` returns
  exactly the items whose (degenerate, point) bounding boxes intersect
  the query box, with inclusive comparisons; it is modelled as a filter
  over the backing shelter list.
-/

/-- City identifiers for multi-city support (types module). -/
inductive City where
  | telAviv
  | jerusalem
deriving DecidableEq

/-- Shelter categories from the city data sources (types module). -/
inductive ShelterType where
  | public_shelter
  | accessible_shelter
  | parking_shelter
  | stairwell
  | other
deriving DecidableEq

/-- A normalized shelter record (types module).  Coordinates are WGS84
degrees, modelled as rationals. -/
structure Shelter where
  id : String
  lat : ℚ
  lon : ℚ
  address : String
  type : ShelterType
  isAccessible : Bool
  isOpen : Option Bool
  openingTimes : Option String
  capacity : Option ℚ
  city : City
deriving DecidableEq

/-- A `(lon, lat)` position, as used in GeoJSON LineString coordinates. -/
abbrev Point := ℚ × ℚ

/-- The spatial index class state: the backing shelter collection.  The
R-tree built by `buildIndex` holds one degenerate (point) box per shelter
and is fully determined by this list, so it needs no separate field. -/
structure ShelterSpatialIndex where
  shelters : List Shelter
deriving DecidableEq

/-- `rbush` box search over the index: all shelters whose point bounding
box intersects the query box `[minX, maxX] × [minY, maxY]` (inclusive
comparisons, as in rbush's `intersects`). -/
def ShelterSpatialIndex.search (st : ShelterSpatialIndex)
    (minX minY maxX maxY : ℚ) : List Shelter :=
  st.shelters.filter fun s =>
    minX ≤ s.lon ∧ s.lon ≤ maxX ∧ minY ≤ s.lat ∧ s.lat ≤ maxY

/-- The `getNearestShelter` accumulation loop over the candidate list:
`nearest` starts as `null` and `minDist` as `Infinity`, and a candidate
replaces the current best exactly when its distance is strictly smaller. -/
def nearestLoop {α : Type} [LinearOrder α] (d : Shelter → α) :
    List Shelter → Option Shelter → WithTop α → Option Shelter
  | [], nearest, _ => nearest
  | c :: rest, nearest, minDist =>
    if (d c : WithTop α) < minDist then nearestLoop d rest (some c) (d c)
    else nearestLoop d rest nearest minDist

/-- The expanding search radii of `getNearestShelter`, in degrees. -/
def searchRadii : List ℚ := [1/1000, 2/1000, 3/1000]

/-- The radius loop of `getNearestShelter`: for the first radius whose
square window holds at least one candidate, return the nearest candidate
by `d`; if every window is empty, return `none`. -/
def getNearestShelterGo {α : Type} [LinearOrder α] (d : ℚ → ℚ → ℚ → ℚ → α)
    (st : ShelterSpatialIndex) (lat lon : ℚ) : List ℚ → Option Shelter
  | [] => none
  | radius :: rest =>
    let candidates := st.search (lon - radius) (lat - radius) (lon + radius) (lat + radius)
    if candidates.isEmpty then getNearestShelterGo d st lat lon rest
    else nearestLoop (fun c => d lat lon c.lat c.lon) candidates none ⊤

/-- `getNearestShelter(lat, lon)`: search the expanding windows of
`searchRadii` and return the nearest candidate of the first non-empty
window, or `none`.  `d` abstracts the private `haversineDistance`. -/
def ShelterSpatialIndex.getNearestShelter {α : Type} [LinearOrder α]
    (d : ℚ → ℚ → ℚ → ℚ → α) (st : ShelterSpatialIndex) (lat lon : ℚ) :
    Option Shelter :=
  getNearestShelterGo d st lat lon searchRadii

/-- `getNearestShelterDistance(lat, lon)`: distance to the nearest
shelter, or `Infinity` (modelled `⊤`) when `getNearestShelter` is `none`. -/
def ShelterSpatialIndex.getNearestShelterDistance {α : Type} [LinearOrder α]
    (d : ℚ → ℚ → ℚ → ℚ → α) (st : ShelterSpatialIndex) (lat lon : ℚ) :
    WithTop α :=
  match st.getNearestShelter d lat lon with
  | none => ⊤
  | some nearest => (d lat lon nearest.lat nearest.lon : α)

/-- `getSheltersWithinRadius(lat, lon, radiusMeters)`: box pre-filter with
the approximate degree buffer `radiusMeters / 111000`, then exact filter
`d ≤ radiusMeters`.  (The source's final `.map(c => c.shelter)` is the
identity here because box entries are modelled by their shelters.) -/
def ShelterSpatialIndex.getSheltersWithinRadius {α : Type} [LinearOrderedField α]
    (d : ℚ → ℚ → ℚ → ℚ → α) (st : ShelterSpatialIndex)
    (lat lon radiusMeters : ℚ) : List Shelter :=
  let radiusDegrees := radiusMeters / 111000
  let candidates := st.search (lon - radiusDegrees) (lat - radiusDegrees)
    (lon + radiusDegrees) (lat + radiusDegrees)
  candidates.filter fun c => d lat lon c.lat c.lon ≤ (radiusMeters : α)

/-- A geographic bounding box in `turf.bbox` order. -/
structure BBox where
  minX : ℚ
  minY : ℚ
  maxX : ℚ
  maxY : ℚ

/-- `turf.bbox` of a LineString: componentwise min/max over the
coordinates.  A LineString has at least 2 positions (`turf.lineString`
throws otherwise); the empty case is a dummy that never arises. -/
def bboxOf : List Point → BBox
  | [] => ⟨0, 0, 0, 0⟩
  | p :: rest =>
    rest.foldl (fun acc q => ⟨min acc.minX q.1, min acc.minY q.2,
      max acc.maxX q.1, max acc.maxY q.2⟩) ⟨p.1, p.2, p.1, p.2⟩

/-- Modelled from turf.pointToLineDistance: the distance from a point to
a polyline as a connected line is the minimum over the polyline's
segments of the point-to-segment distance; `segDist` abstracts turf's
per-segment kernel.  Fewer than two vertices leave no segment (the turf
call site never produces this), giving `⊤`. -/
def pointToLineDistance (segDist : Point → Point → Point → ℚ) (p : Point) :
    List Point → WithTop ℚ
  | a :: b :: rest =>
    min (segDist p a b : ℚ) (pointToLineDistance segDist p (b :: rest))
  | _ => ⊤

/-- `getSheltersNearRoute(geometry, corridorMeters)`: box pre-filter on
the route's bbox expanded by the degree buffer, then exact filter by
point-to-line distance `≤ corridorMeters`. -/
def ShelterSpatialIndex.getSheltersNearRoute
    (segDist : Point → Point → Point → ℚ) (st : ShelterSpatialIndex)
    (coordinates : List Point) (corridorMeters : ℚ) : List Shelter :=
  let bb := bboxOf coordinates
  let bufferDegrees := corridorMeters / 111000
  let candidates := st.search (bb.minX - bufferDegrees) (bb.minY - bufferDegrees)
    (bb.maxX + bufferDegrees) (bb.maxY + bufferDegrees)
  candidates.filter fun c =>
    pointToLineDistance segDist (c.lon, c.lat) coordinates ≤ (corridorMeters : WithTop ℚ)

/-- `getAllShelters()`: the backing collection. -/
def ShelterSpatialIndex.getAllShelters (st : ShelterSpatialIndex) : List Shelter :=
  st.shelters

/-- `updateShelters(shelters)`: the source method returns `void` and
mutates the receiver (`this.shelters = shelters; this.tree.clear();
this.buildIndex()`); the result here is the post-call state of that same
index object. -/
def ShelterSpatialIndex.updateShelters (_st : ShelterSpatialIndex)
    (shelters : List Shelter) : ShelterSpatialIndex :=
  { shelters := shelters }

/-- Degrees to radians, as the private `toRad`. -/
noncomputable def toRad (deg : ℝ) : ℝ := deg * (Real.pi / 180)

/-- JS `Math.atan2` (signed zeros and NaN aside). -/
noncomputable def atan2 (y x : ℝ) : ℝ :=
  if 0 < x then Real.arctan (y / x)
  else if x < 0 then
    (if 0 ≤ y then Real.arctan (y / x) + Real.pi else Real.arctan (y / x) - Real.pi)
  else
    (if 0 < y then Real.pi / 2 else if y < 0 then -(Real.pi / 2) else 0)

/-- The private `haversineDistance(lat1, lon1, lat2, lon2)` in meters, on
a spherical Earth of radius 6371000 m. -/
noncomputable def haversineDistance (lat1 lon1 lat2 lon2 : ℚ) : ℝ :=
  let R : ℝ := 6371000
  let dLat := toRad ((lat2 : ℝ) - (lat1 : ℝ))
  let dLon := toRad ((lon2 : ℝ) - (lon1 : ℝ))
  let a := Real.sin (dLat / 2) * Real.sin (dLat / 2) +
    Real.cos (toRad (lat1 : ℝ)) * Real.cos (toRad (lat2 : ℝ)) *
    Real.sin (dLon / 2) * Real.sin (dLon / 2)
  let c := 2 * atan2 (Real.sqrt a) (Real.sqrt (1 - a))
  R * c

/-- Linear interpolation between two polyline vertices.  Modelled from
turf.along's within-segment interpolation (§4.3 of the spec:
"interpolating linearly within the enclosing polyline segment"); at the
parameters 0 and 1 it is the exact segment endpoint, as in turf. -/
def lerp (p q : Point) (t : ℚ) : Point :=
  (p.1 + t * (q.1 - p.1), p.2 + t * (q.2 - p.2))

/-- Modelled from turf.along: walk the polyline consuming segment lengths
(`turfD` abstracts turf's spherical segment distance, in kilometers);
interpolate inside the segment where the target distance is reached, and
clamp to the last vertex when the distance exceeds the total length. -/
def along (turfD : Point → Point → ℚ) : List Point → ℚ → Point
  | [], _ => (0, 0)
  | [p], _ => p
  | p :: q :: rest, dist =>
    let seg := turfD p q
    if dist ≤ seg then lerp p q (if seg = 0 then 0 else dist / seg)
    else along turfD (q :: rest) (dist - seg)

/-- `turf.length` of the polyline: the sum of consecutive-vertex segment
distances (kilometers). -/
def lineLength (turfD : Point → Point → ℚ) : List Point → ℚ
  | p :: q :: rest => turfD p q + lineLength turfD (q :: rest)
  | _ => 0

/-- The sample count of `calculateRouteMetrics`:
`Math.max(10, Math.ceil(lengthKm * 1000 / 25))`. -/
def sampleCountOf (turfD : Point → Point → ℚ) (coordinates : List Point) : ℕ :=
  max 10 (Int.ceil (lineLength turfD coordinates * 1000 / 25)).toNat

/-- The sample loop of `calculateRouteMetrics`: for `i = 0 … sampleCount`
take `turf.along(line, lengthKm * (i / sampleCount))`. -/
def routeSamplePoints (turfD : Point → Point → ℚ) (coordinates : List Point) :
    List Point :=
  (List.range (sampleCountOf turfD coordinates + 1)).map fun i : ℕ =>
    along turfD coordinates
      (lineLength turfD coordinates * ((i : ℚ) / (sampleCountOf turfD coordinates : ℚ)))

/-- Division of a possibly-infinite JS number by a finite constant:
`Infinity / c = Infinity`. -/
def divInf {α : Type} [LinearOrderedField α] : WithTop α → α → WithTop α
  | ⊤, _ => ⊤
  | (q : α), c => ((q / c : α) : WithTop α)

/-- `Math.min` of a finite number and a possibly-infinite one: the result
is finite. -/
def minInf {α : Type} [LinearOrderedField α] (a : α) : WithTop α → α
  | ⊤ => a
  | (q : α) => min a q

/-- `Math.max(...distances)` over the per-sample distance list.  The
no-argument case of `Math.max` is `-Infinity`; it cannot arise because the
sampler always yields at least 11 sample points, and is modelled as 0. -/
def maxGapOf {α : Type} [LinearOrderedField α] : List (WithTop α) → WithTop α
  | [] => 0
  | h :: t => t.foldl max h

/-- `distances.reduce((a, b) => a + b, 0) / distances.length` (JS
addition with `Infinity` absorbing). -/
def avgDistanceOf {α : Type} [LinearOrderedField α] (distances : List (WithTop α)) :
    WithTop α :=
  divInf (distances.foldl (· + ·) 0) (distances.length : α)

/-- The safety-score computation of `calculateRouteMetrics`, from the
per-sample distances and the 150 m-corridor shelter count. -/
def calculateSafetyScore {α : Type} [LinearOrderedField α]
    (distances : List (WithTop α)) (sheltersNearRoute : ℕ) : α :=
  let gapPenalty := minInf 100 (divInf (maxGapOf distances) 5)
  let avgPenalty := minInf 50 (divInf (avgDistanceOf distances) 4)
  let shelterBonus := min 30 ((sheltersNearRoute : α) * 3)
  max 0 (min 100 (100 - gapPenalty - avgPenalty + shelterBonus))

/-- The `RouteMetrics` interface of the types module.
`minDistanceToShelter` is declared there ("meters - closest shelter along
route"); it is an `Option` because the scoring code's object literal can
leave it absent (`undefined`). -/
structure RouteMetrics (α : Type) where
  distanceKm : α
  durationMinutes : α
  minDistanceToShelter : Option (WithTop α)
  maxGapToShelter : WithTop α
  avgDistanceToShelter : WithTop α
  sheltersNearRoute : ℕ
  safetyScore : α

/-- Modelled from the spec: "`minDistanceToShelter` = minimum of the
list" of per-sample distances.  The source's `calculateRouteMetrics`
computes no such minimum, so this definition follows the spec's words. -/
def specMinDistanceToShelter {α : Type} [LinearOrderedField α] :
    List (WithTop α) → Option (WithTop α)
  | [] => none
  | h :: t => some (t.foldl min h)

/-- `calculateRouteMetrics(geometry, distanceMeters, durationSeconds,
spatialIndex)`: sample the route, query the nearest-shelter distance per
sample, aggregate, and score.  The returned object literal sets exactly
the six fields the source lists; `minDistanceToShelter` is absent
(`none`). -/
def calculateRouteMetrics {α : Type} [LinearOrderedField α]
    (turfD : Point → Point → ℚ) (segDist : Point → Point → Point → ℚ)
    (d : ℚ → ℚ → ℚ → ℚ → α) (spatialIndex : ShelterSpatialIndex)
    (coordinates : List Point) (distanceMeters durationSeconds : α) :
    RouteMetrics α :=
  let samplePoints := routeSamplePoints turfD coordinates
  let distances := samplePoints.map fun p =>
    spatialIndex.getNearestShelterDistance d p.2 p.1
  { distanceKm := distanceMeters / 1000
    durationMinutes := durationSeconds / 60
    minDistanceToShelter := none
    maxGapToShelter := maxGapOf distances
    avgDistanceToShelter := avgDistanceOf distances
    sheltersNearRoute := (spatialIndex.getSheltersNearRoute segDist coordinates 150).length
    safetyScore := calculateSafetyScore distances
      ((spatialIndex.getSheltersNearRoute segDist coordinates 150).length) }

/-- `calculateCombinedScore(metrics, safetyWeight)` (lower is better):
`(1 - w) * (distanceKm / 10) + w * (1 - safetyScore / 100)`. -/
def calculateCombinedScore {α : Type} [LinearOrderedField α]
    (metrics : RouteMetrics α) (safetyWeight : α) : α :=
  let normalizedDistance := metrics.distanceKm / 10
  let normalizedRisk := 1 - metrics.safetyScore / 100
  (1 - safetyWeight) * normalizedDistance + safetyWeight * normalizedRisk

/-! ## Concrete instances used by witnesses and counterexamples -/

/-- A computable stand-in distance function used to instantiate the
abstract distance parameter in witnesses. -/
def dTaxi (lat1 lon1 lat2 lon2 : ℚ) : ℚ := |lat2 - lat1| + |lon2 - lon1|

/-- A shelter at the origin. -/
def shelterO : Shelter :=
  { id := "o", lat := 0, lon := 0, address := "rehov", type := .public_shelter
    isAccessible := false, isOpen := none, openingTimes := none
    capacity := none, city := .telAviv }

/-- A shelter 0.001 degrees of latitude north of the query point (32, 0):
inside the first search window of `getNearestShelter`. -/
def shelterA : Shelter :=
  { id := "a", lat := 32001/1000, lon := 0, address := "rehov a", type := .other
    isAccessible := false, isOpen := none, openingTimes := none
    capacity := none, city := .telAviv }

/-- A shelter 0.0011 degrees of longitude east of the query point (32, 0):
just outside the first search window, but closer by haversine distance
(at latitude 32 a degree of longitude is shorter than a degree of
latitude). -/
def shelterB : Shelter :=
  { id := "b", lat := 32, lon := 11/10000, address := "rehov b", type := .other
    isAccessible := false, isOpen := none, openingTimes := none
    capacity := none, city := .telAviv }

/-- A shelter far away from the origin: in no search window of a query
at (0, 0). -/
def shelterFar : Shelter :=
  { id := "f", lat := 50, lon := 50, address := "rahok", type := .other
    isAccessible := false, isOpen := none, openingTimes := none
    capacity := none, city := .jerusalem }

/-- Concrete route metrics (2 km, safety 90) for the C8 witness. -/
def metricsHighSafety : RouteMetrics ℚ :=
  { distanceKm := 2, durationMinutes := 25, minDistanceToShelter := none
    maxGapToShelter := 120, avgDistanceToShelter := 80
    sheltersNearRoute := 5, safetyScore := 90 }

/-- Concrete route metrics (1.8 km, safety 40) for the C8 witness. -/
def metricsShortRoute : RouteMetrics ℚ :=
  { distanceKm := 9/5, durationMinutes := 22, minDistanceToShelter := none
    maxGapToShelter := 400, avgDistanceToShelter := 200
    sheltersNearRoute := 1, safetyScore := 40 }

/-! ## C1: safety-score formula and bounds -/

/-- Claim C1: for any non-empty list of per-sample distances (finite or
infinite) and any nearby-shelter count, the safety score equals
`clamp (100 - min(100, maxGap/5) - min(50, avg/4) + min(30, count*3))`
to `[0, 100]`, and it always lies in `[0, 100]`. -/
theorem c1_safetyScore_formula_bounds {α : Type} [LinearOrderedField α]
    (distances : List (WithTop α)) (n : ℕ) (hne : distances ≠ []) :
    calculateSafetyScore distances n =
      max 0 (min 100 (100 - minInf 100 (divInf (maxGapOf distances) 5)
        - minInf 50 (divInf (avgDistanceOf distances) 4) + min 30 ((n : α) * 3)))
    ∧ 0 ≤ calculateSafetyScore distances n
    ∧ calculateSafetyScore distances n ≤ 100 := by
  refine ⟨rfl, le_max_left _ _, ?_⟩
  exact max_le (by norm_num) (min_le_left _ _)

/-- Witness for C1 at the concrete distance list `[3, Infinity]` with 2
nearby shelters. -/
theorem c1_witness :
    ([(3 : WithTop ℚ), ⊤] ≠ ([] : List (WithTop ℚ)))
    ∧ 0 ≤ calculateSafetyScore [(3 : WithTop ℚ), ⊤] 2
    ∧ calculateSafetyScore [(3 : WithTop ℚ), ⊤] 2 ≤ 100 :=
  ⟨by decide, (c1_safetyScore_formula_bounds [(3 : WithTop ℚ), ⊤] 2 (by decide)).2⟩

/-! ## C2: the returned metrics never contain `minDistanceToShelter` -/

/-- Claim C2 (refuted, code bug): the metrics object built by
`calculateRouteMetrics` never carries a `minDistanceToShelter` value —
the source's object literal omits the field the `RouteMetrics` interface
declares — whereas the spec-modelled value is `some` (the minimum of the
per-sample distance list) whenever at least one sample exists. -/
theorem c2_minDistanceToShelter_missing {α : Type} [LinearOrderedField α]
    (turfD : Point → Point → ℚ) (segDist : Point → Point → Point → ℚ)
    (d : ℚ → ℚ → ℚ → ℚ → α) (spatialIndex : ShelterSpatialIndex)
    (coordinates : List Point) (distanceMeters durationSeconds : α) :
    (calculateRouteMetrics turfD segDist d spatialIndex coordinates
      distanceMeters durationSeconds).minDistanceToShelter = none
    ∧ ∀ (q : WithTop α) (t : List (WithTop α)),
        specMinDistanceToShelter (q :: t) = some (t.foldl min q) :=
  ⟨rfl, fun _ _ => rfl⟩

/-! ## C4: `updateShelters` mutates the index in place -/

/-- Counterexample for C4: build an index over one shelter and call
`updateShelters` with the empty collection; the previously held index
(its post-call state) answers `getAllShelters` with the NEW collection,
not the old one, so no old snapshot survives the call. -/
theorem c4_updateShelters_counterexample :
    ((ShelterSpatialIndex.mk [shelterO]).updateShelters []).getAllShelters ≠ [shelterO]
    ∧ ((ShelterSpatialIndex.mk [shelterO]).updateShelters []).getAllShelters = [] := by
  exact ⟨by decide, rfl⟩

/-- Claim C4 as amended: `updateShelters(shelters)` returns no snapshot
(`void` in the source); it replaces the backing collection wholesale, so
the held index afterwards behaves exactly like an index freshly built
from the new collection and answers queries against it. -/
theorem c4_updateShelters_amended (st : ShelterSpatialIndex)
    (shelters : List Shelter) :
    st.updateShelters shelters = ShelterSpatialIndex.mk shelters
    ∧ (st.updateShelters shelters).getAllShelters = shelters :=
  ⟨rfl, rfl⟩

/-! ## C6: radius queries are monotone in the radius -/

/-- Claim C6: for radii `r1 < r2`, every shelter returned by
`getSheltersWithinRadius` at `r1` is also returned at `r2`: the window
grows with the radius, and the exact distance threshold weakens. -/
theorem c6_radius_monotone {α : Type} [LinearOrderedField α]
    (d : ℚ → ℚ → ℚ → ℚ → α) (st : ShelterSpatialIndex)
    (lat lon r1 r2 : ℚ) (h : r1 < r2) :
    ∀ s ∈ st.getSheltersWithinRadius d lat lon r1,
      s ∈ st.getSheltersWithinRadius d lat lon r2 := by
  intro s hs
  simp only [ShelterSpatialIndex.getSheltersWithinRadius,
    ShelterSpatialIndex.search, List.mem_filter, decide_eq_true_eq] at hs ⊢
  obtain ⟨⟨hmem, hx1, hx2, hy1, hy2⟩, hdist⟩ := hs
  have hq : (r1 : α) ≤ (r2 : α) := by exact_mod_cast h.le
  exact ⟨⟨hmem, by linarith, by linarith, by linarith, by linarith⟩,
    le_trans hdist hq⟩

/-- Witness for C6: the origin shelter found at radius 1 m is also found
at radius 2 m. -/
theorem c6_witness :
    (1 : ℚ) < 2
    ∧ shelterO ∈ (ShelterSpatialIndex.mk [shelterO]).getSheltersWithinRadius dTaxi 0 0 2 :=
  ⟨by norm_num,
   c6_radius_monotone dTaxi (ShelterSpatialIndex.mk [shelterO]) 0 0 1 2 (by norm_num)
     shelterO (by
       simp only [ShelterSpatialIndex.getSheltersWithinRadius,
         ShelterSpatialIndex.search, List.mem_filter, List.mem_singleton,
         decide_eq_true_eq, shelterO, dTaxi]
       norm_num)⟩

/-! ## C8: the combined score is monotone in the safety weight -/

/-- Claim C8: fix routes A (strictly higher safety score) and B (strictly
shorter distance).  If A's combined score is at most B's at weight `w1`,
it stays at most B's at every weight `w2 ≥ w1`. -/
theorem c8_weight_monotone {α : Type} [LinearOrderedField α]
    (mA mB : RouteMetrics α) (w1 w2 : α)
    (hd : mB.distanceKm < mA.distanceKm)
    (hs : mB.safetyScore < mA.safetyScore)
    (hw : w1 ≤ w2)
    (h1 : calculateCombinedScore mA w1 ≤ calculateCombinedScore mB w1) :
    calculateCombinedScore mA w2 ≤ calculateCombinedScore mB w2 := by
  simp only [calculateCombinedScore] at h1 ⊢
  nlinarith [mul_nonneg (sub_nonneg.2 hw) (sub_nonneg.2 hd.le),
    mul_nonneg (sub_nonneg.2 hw) (sub_nonneg.2 hs.le)]

/-- Witness for C8 at the spec's concrete scenario (A: 2 km / safety 90,
B: 1.8 km / safety 40) with weights 1/2 and 1. -/
theorem c8_witness :
    (metricsShortRoute.distanceKm < metricsHighSafety.distanceKm
      ∧ metricsShortRoute.safetyScore < metricsHighSafety.safetyScore
      ∧ (1/2 : ℚ) ≤ 1
      ∧ calculateCombinedScore metricsHighSafety (1/2 : ℚ) ≤
          calculateCombinedScore metricsShortRoute (1/2 : ℚ))
    ∧ calculateCombinedScore metricsHighSafety (1 : ℚ) ≤
        calculateCombinedScore metricsShortRoute 1 :=
  ⟨⟨by norm_num [metricsShortRoute, metricsHighSafety],
    by norm_num [metricsShortRoute, metricsHighSafety],
    by norm_num,
    by norm_num [calculateCombinedScore, metricsShortRoute, metricsHighSafety]⟩,
   c8_weight_monotone metricsHighSafety metricsShortRoute (1/2) 1
     (by norm_num [metricsShortRoute, metricsHighSafety])
     (by norm_num [metricsShortRoute, metricsHighSafety])
     (by norm_num)
     (by norm_num [calculateCombinedScore, metricsShortRoute, metricsHighSafety])⟩

/-! ## C9: an index over an empty collection never finds anything -/

/-- Claim C9: with an empty shelter collection, `getNearestShelter`
returns `none`, `getNearestShelterDistance` returns `Infinity`,
`getSheltersWithinRadius` and `getSheltersNearRoute` return `[]` — all
queries are total functions here, so none of them can throw. -/
theorem c9_empty_index {α : Type} [LinearOrderedField α]
    (d : ℚ → ℚ → ℚ → ℚ → α) (segDist : Point → Point → Point → ℚ)
    (lat lon radiusMeters corridorMeters : ℚ) (coordinates : List Point) :
    (ShelterSpatialIndex.mk []).getNearestShelter d lat lon = none
    ∧ (ShelterSpatialIndex.mk []).getNearestShelterDistance d lat lon = ⊤
    ∧ (ShelterSpatialIndex.mk []).getSheltersWithinRadius d lat lon radiusMeters = []
    ∧ (ShelterSpatialIndex.mk []).getSheltersNearRoute segDist coordinates corridorMeters = [] :=
  ⟨rfl, rfl, rfl, rfl⟩

/-! ## C5: the corridor query never returns a shelter beyond the corridor -/

/-- A point-to-line distance below a finite bound is witnessed by some
segment of the polyline within that bound. -/
lemma pointToLineDistance_le_exists (segDist : Point → Point → Point → ℚ)
    (p : Point) (c : ℚ) :
    ∀ (l : List Point), 2 ≤ l.length →
      pointToLineDistance segDist p l ≤ (c : WithTop ℚ) →
      ∃ pq ∈ l.zip l.tail, segDist p pq.1 pq.2 ≤ c := by
  intro l
  induction l with
  | nil => intro h; simp at h
  | cons x l' ih =>
    intro hlen hle
    cases l' with
    | nil => simp at hlen
    | cons y l2 =>
      rw [show pointToLineDistance segDist p (x :: y :: l2)
          = min ((segDist p x y : ℚ) : WithTop ℚ)
              (pointToLineDistance segDist p (y :: l2)) from rfl] at hle
      rcases min_le_iff.mp hle with h1 | h2
      · exact ⟨(x, y), by simp, WithTop.coe_le_coe.mp h1⟩
      · cases l2 with
        | nil => simp [pointToLineDistance] at h2
        | cons z l3 =>
          obtain ⟨pq, hmem, hpq⟩ := ih (by simp) h2
          refine ⟨pq, ?_, hpq⟩
          simp only [List.tail_cons, List.zip_cons_cons] at hmem ⊢
          exact List.mem_cons_of_mem _ hmem

/-- Claim C5: every shelter returned by `getSheltersNearRoute` with
corridor width `c` has point-to-line distance at most `c` to the route
polyline, and (for a real polyline, with at least two vertices) some
segment of the connected line is within `c` of the shelter. -/
theorem c5_corridor_filter (segDist : Point → Point → Point → ℚ)
    (st : ShelterSpatialIndex) (coordinates : List Point) (corridorMeters : ℚ) :
    ∀ s ∈ st.getSheltersNearRoute segDist coordinates corridorMeters,
      pointToLineDistance segDist (s.lon, s.lat) coordinates ≤ (corridorMeters : WithTop ℚ)
      ∧ ∀ a b rest, coordinates = a :: b :: rest →
          ∃ pq ∈ coordinates.zip coordinates.tail,
            segDist (s.lon, s.lat) pq.1 pq.2 ≤ corridorMeters := by
  intro s hs
  have hle : pointToLineDistance segDist (s.lon, s.lat) coordinates
      ≤ (corridorMeters : WithTop ℚ) := by
    simp only [ShelterSpatialIndex.getSheltersNearRoute, List.mem_filter,
      decide_eq_true_eq] at hs
    exact hs.2
  refine ⟨hle, fun a b rest heq => ?_⟩
  subst heq
  exact pointToLineDistance_le_exists segDist (s.lon, s.lat) corridorMeters
    (a :: b :: rest) (by simp) hle

/-- A degenerate segment-distance kernel for witnesses. -/
def segZero : Point → Point → Point → ℚ := fun _ _ _ => 0

/-- A two-vertex route polyline through the origin. -/
def routeV : List Point := [(0, 0), (1/1000, 0)]

/-- Witness for C5: the origin shelter is returned for the concrete route
`routeV` with corridor 150 m, and its point-to-line distance is within
the corridor. -/
theorem c5_witness :
    shelterO ∈ (ShelterSpatialIndex.mk [shelterO]).getSheltersNearRoute segZero routeV 150
    ∧ pointToLineDistance segZero (shelterO.lon, shelterO.lat) routeV
        ≤ ((150 : ℚ) : WithTop ℚ) := by
  have hmem : shelterO ∈
      (ShelterSpatialIndex.mk [shelterO]).getSheltersNearRoute segZero routeV 150 := by
    simp only [ShelterSpatialIndex.getSheltersNearRoute, ShelterSpatialIndex.search,
      bboxOf, routeV, segZero, pointToLineDistance, shelterO, List.foldl,
      List.mem_filter, List.mem_singleton, decide_eq_true_eq, min_le_iff,
      WithTop.coe_le_coe, le_top]
    norm_num
  exact ⟨hmem, (c5_corridor_filter segZero _ routeV 150 shelterO hmem).1⟩

/-! ## C3: nearest-shelter membership; `none` means an empty largest window -/

/-- The nearest-candidate loop only ever returns a list element or the
incoming accumulator. -/
lemma nearestLoop_mem {α : Type} [LinearOrder α] (d : Shelter → α) :
    ∀ (l : List Shelter) (acc : Option Shelter) (m : WithTop α) (s : Shelter),
      nearestLoop d l acc m = some s → s ∈ l ∨ acc = some s := by
  intro l
  induction l with
  | nil => intro acc m s h; exact Or.inr h
  | cons c rest ih =>
    intro acc m s h
    rw [show nearestLoop d (c :: rest) acc m
        = if (d c : WithTop α) < m then nearestLoop d rest (some c) (d c)
          else nearestLoop d rest acc m from rfl] at h
    split at h
    · rcases ih _ _ _ h with h1 | h2
      · exact Or.inl (List.mem_cons_of_mem _ h1)
      · obtain rfl : c = s := Option.some.inj h2
        exact Or.inl (List.mem_cons_self c rest)
    · rcases ih _ _ _ h with h1 | h2
      · exact Or.inl (List.mem_cons_of_mem _ h1)
      · exact Or.inr h2

/-- Once the accumulator holds a shelter, the loop keeps holding one. -/
lemma nearestLoop_isSome {α : Type} [LinearOrder α] (d : Shelter → α) :
    ∀ (l : List Shelter) (s0 : Shelter) (m : WithTop α),
      (nearestLoop d l (some s0) m).isSome = true := by
  intro l
  induction l with
  | nil => intro s0 m; rfl
  | cons c rest ih =>
    intro s0 m
    rw [show nearestLoop d (c :: rest) (some s0) m
        = if (d c : WithTop α) < m then nearestLoop d rest (some c) (d c)
          else nearestLoop d rest (some s0) m from rfl]
    split
    · exact ih c _
    · exact ih s0 m

/-- Over a non-empty candidate list with `minDist = Infinity`, the loop
returns a shelter: the first candidate's distance beats `Infinity`. -/
lemma nearestLoop_cons_ne_none {α : Type} [LinearOrder α] (d : Shelter → α)
    (c : Shelter) (rest : List Shelter) :
    nearestLoop d (c :: rest) none ⊤ ≠ none := by
  rw [show nearestLoop d (c :: rest) none ⊤
      = if (d c : WithTop α) < ⊤ then nearestLoop d rest (some c) (d c)
        else nearestLoop d rest none ⊤ from rfl]
  rw [if_pos (WithTop.coe_lt_top (d c))]
  intro h
  have hs := nearestLoop_isSome d rest c (d c)
  rw [h] at hs
  exact Bool.noConfusion hs

/-- Any shelter produced by the radius loop comes from the backing
collection. -/
lemma getNearestShelterGo_mem {α : Type} [LinearOrder α]
    (d : ℚ → ℚ → ℚ → ℚ → α) (st : ShelterSpatialIndex) (lat lon : ℚ) :
    ∀ (radii : List ℚ) (s : Shelter),
      getNearestShelterGo d st lat lon radii = some s → s ∈ st.shelters := by
  intro radii
  induction radii with
  | nil => intro s h; exact Option.noConfusion h
  | cons r rest ih =>
    intro s h
    simp only [getNearestShelterGo] at h
    split at h
    · exact ih s h
    · rcases nearestLoop_mem _ _ _ _ _ h with h1 | h2
      · exact (List.mem_filter.mp h1).1
      · exact Option.noConfusion h2

/-- If the radius loop returns `none`, every searched window was empty. -/
lemma getNearestShelterGo_none_forall {α : Type} [LinearOrder α]
    (d : ℚ → ℚ → ℚ → ℚ → α) (st : ShelterSpatialIndex) (lat lon : ℚ) :
    ∀ radii, getNearestShelterGo d st lat lon radii = none →
      ∀ r ∈ radii, st.search (lon - r) (lat - r) (lon + r) (lat + r) = [] := by
  intro radii
  induction radii with
  | nil => intro _ r hr; exact absurd hr (List.not_mem_nil r)
  | cons r0 rest ih =>
    intro h r hr
    simp only [getNearestShelterGo] at h
    by_cases hc : (st.search (lon - r0) (lat - r0) (lon + r0) (lat + r0)).isEmpty = true
    · rw [if_pos hc] at h
      rcases List.mem_cons.mp hr with rfl | hr'
      · exact List.isEmpty_iff.mp hc
      · exact ih h r hr'
    · rw [if_neg hc] at h
      have hne : st.search (lon - r0) (lat - r0) (lon + r0) (lat + r0) ≠ [] := by
        intro hnil
        rw [hnil] at hc
        exact hc rfl
      obtain ⟨c, cs, hcs⟩ := List.exists_cons_of_ne_nil hne
      rw [hcs] at h
      exact absurd h (nearestLoop_cons_ne_none _ c cs)

/-- Window containment: a smaller square search window returns a subset. -/
lemma search_mono (st : ShelterSpatialIndex) (lat lon : ℚ) {r r' : ℚ}
    (h : r ≤ r') :
    ∀ s ∈ st.search (lon - r) (lat - r) (lon + r) (lat + r),
      s ∈ st.search (lon - r') (lat - r') (lon + r') (lat + r') := by
  intro s hs
  simp only [ShelterSpatialIndex.search, List.mem_filter, decide_eq_true_eq] at hs ⊢
  obtain ⟨hmem, h1, h2, h3, h4⟩ := hs
  exact ⟨hmem, by linarith, by linarith, by linarith, by linarith⟩

/-- If the largest window is empty, the radius loop finds nothing. -/
lemma getNearestShelterGo_none_of_largest_empty {α : Type} [LinearOrder α]
    (d : ℚ → ℚ → ℚ → ℚ → α) (st : ShelterSpatialIndex) (lat lon R : ℚ)
    (hempty : st.search (lon - R) (lat - R) (lon + R) (lat + R) = []) :
    ∀ radii, (∀ r ∈ radii, r ≤ R) →
      getNearestShelterGo d st lat lon radii = none := by
  intro radii
  induction radii with
  | nil => intro _; rfl
  | cons r0 rest ih =>
    intro hall
    simp only [getNearestShelterGo]
    have hsub : st.search (lon - r0) (lat - r0) (lon + r0) (lat + r0) = [] := by
      rw [List.eq_nil_iff_forall_not_mem]
      intro x hx
      have hx' := search_mono st lat lon (hall r0 (List.mem_cons_self r0 rest)) x hx
      rw [hempty] at hx'
      exact List.not_mem_nil x hx'
    rw [hsub]
    simp only [List.isEmpty_nil, if_true]
    exact ih fun r hr => hall r (List.mem_cons_of_mem r0 hr)

/-- Counterexample for C3: a non-empty collection whose only shelter lies
outside every search window — `getNearestShelter` returns `none` even
though the collection is not empty, refuting "none iff S is empty". -/
theorem c3_nearest_member_counterexample :
    (ShelterSpatialIndex.mk [shelterFar]).getNearestShelter haversineDistance 0 0 = none
    ∧ [shelterFar] ≠ ([] : List Shelter) := by
  constructor
  · simp only [ShelterSpatialIndex.getNearestShelter]
    apply getNearestShelterGo_none_of_largest_empty haversineDistance _ 0 0 (3/1000)
    · simp only [ShelterSpatialIndex.search, shelterFar, List.filter,
        decide_eq_true_eq]
      norm_num
    · intro r hr
      fin_cases hr <;> norm_num
  · simp

/-- Claim C3 as amended: `getNearestShelter` always returns a member of
the backing collection, and it returns `none` iff no shelter lies in the
largest (0.003 degree) search window around the query — in particular
`none` whenever the collection is empty, but also for non-empty
collections with no shelter near the query. -/
theorem c3_nearest_member_amended {α : Type} [LinearOrder α]
    (d : ℚ → ℚ → ℚ → ℚ → α) (st : ShelterSpatialIndex) (lat lon : ℚ) :
    (∀ s, st.getNearestShelter d lat lon = some s → s ∈ st.shelters)
    ∧ (st.getNearestShelter d lat lon = none ↔
        st.search (lon - 3/1000) (lat - 3/1000) (lon + 3/1000) (lat + 3/1000) = []) := by
  constructor
  · intro s h
    exact getNearestShelterGo_mem d st lat lon searchRadii s h
  · constructor
    · intro h
      exact getNearestShelterGo_none_forall d st lat lon searchRadii h (3/1000)
        (by norm_num [searchRadii])
    · intro h
      exact getNearestShelterGo_none_of_largest_empty d st lat lon (3/1000) h
        searchRadii (by intro r hr; fin_cases hr <;> norm_num)

/-- Witness for C3: on a singleton collection at the query point, the
query returns that shelter, which is a member of the collection. -/
theorem c3_witness :
    (ShelterSpatialIndex.mk [shelterO]).getNearestShelter dTaxi 0 0 = some shelterO
    ∧ shelterO ∈ (ShelterSpatialIndex.mk [shelterO]).shelters := by
  have hsearch : (ShelterSpatialIndex.mk [shelterO]).search
      (0 - 1/1000) (0 - 1/1000) (0 + 1/1000) (0 + 1/1000) = [shelterO] := by
    simp only [ShelterSpatialIndex.search, shelterO, List.filter, decide_eq_true_eq]
    norm_num
  have h1 : (ShelterSpatialIndex.mk [shelterO]).getNearestShelter dTaxi 0 0
      = some shelterO := by
    simp only [ShelterSpatialIndex.getNearestShelter, searchRadii, getNearestShelterGo,
      hsearch]
    rw [if_neg (by simp)]
    simp only [nearestLoop]
    rw [if_pos (WithTop.coe_lt_top _)]
  exact ⟨h1, (c3_nearest_member_amended dTaxi (ShelterSpatialIndex.mk [shelterO]) 0 0).1
    shelterO h1⟩

/-! ## C7: the route sampler -/

/-- Polyline length is nonnegative when consecutive segment distances are
positive. -/
lemma lineLength_nonneg (turfD : Point → Point → ℚ) :
    ∀ l : List Point, List.Chain' (fun a b => 0 < turfD a b) l →
      0 ≤ lineLength turfD l := by
  intro l
  induction l with
  | nil => intro _; norm_num [lineLength]
  | cons p l' ih =>
    intro hc
    cases l' with
    | nil => norm_num [lineLength]
    | cons q l2 =>
      rw [show lineLength turfD (p :: q :: l2)
          = turfD p q + lineLength turfD (q :: l2) from rfl]
      obtain ⟨h1, h2⟩ := List.chain'_cons.mp hc
      have := ih h2
      linarith

/-- Polyline length is positive for at least one positive segment. -/
lemma lineLength_pos (turfD : Point → Point → ℚ) (p q : Point) (l : List Point)
    (hc : List.Chain' (fun a b => 0 < turfD a b) (p :: q :: l)) :
    0 < lineLength turfD (p :: q :: l) := by
  obtain ⟨h1, h2⟩ := List.chain'_cons.mp hc
  have := lineLength_nonneg turfD (q :: l) h2
  rw [show lineLength turfD (p :: q :: l)
      = turfD p q + lineLength turfD (q :: l) from rfl]
  linarith

/-- `turf.along` at distance 0 is the first vertex. -/
lemma along_zero (turfD : Point → Point → ℚ) (p q : Point) (l : List Point)
    (hpq : 0 < turfD p q) :
    along turfD (p :: q :: l) 0 = p := by
  rw [show along turfD (p :: q :: l) 0
      = (if (0 : ℚ) ≤ turfD p q
         then lerp p q (if turfD p q = 0 then 0 else 0 / turfD p q)
         else along turfD (q :: l) (0 - turfD p q)) from rfl]
  rw [if_pos hpq.le, if_neg hpq.ne', zero_div]
  obtain ⟨p1, p2⟩ := p
  simp [lerp]

/-- `turf.along` at the full polyline length is the last vertex. -/
lemma along_lineLength (turfD : Point → Point → ℚ) :
    ∀ l : List Point, List.Chain' (fun a b => 0 < turfD a b) l →
      l ≠ [] → l.getLast? = some (along turfD l (lineLength turfD l)) := by
  intro l
  induction l with
  | nil => intro _ h; exact absurd rfl h
  | cons p l' ih =>
    intro hc _
    cases l' with
    | nil => rfl
    | cons q l2 =>
      obtain ⟨hpq, hc'⟩ := List.chain'_cons.mp hc
      rw [show lineLength turfD (p :: q :: l2)
          = turfD p q + lineLength turfD (q :: l2) from rfl]
      rw [show along turfD (p :: q :: l2) (turfD p q + lineLength turfD (q :: l2))
          = (if turfD p q + lineLength turfD (q :: l2) ≤ turfD p q
             then lerp p q (if turfD p q = 0 then 0
               else (turfD p q + lineLength turfD (q :: l2)) / turfD p q)
             else along turfD (q :: l2)
               (turfD p q + lineLength turfD (q :: l2) - turfD p q)) from rfl]
      cases l2 with
      | nil =>
        rw [show lineLength turfD [q] = 0 from rfl]
        rw [if_pos (by linarith), if_neg hpq.ne', add_zero, div_self hpq.ne']
        obtain ⟨q1, q2⟩ := q
        simp only [List.getLast?_cons_cons, List.getLast?_singleton, lerp,
          Prod.mk.injEq, Option.some.injEq]
        constructor <;> ring
      | cons r l3 =>
        have hpos : 0 < lineLength turfD (q :: r :: l3) := lineLength_pos turfD q r l3 hc'
        rw [if_neg (by linarith)]
        rw [show turfD p q + lineLength turfD (q :: r :: l3) - turfD p q
            = lineLength turfD (q :: r :: l3) from by ring]
        rw [List.getLast?_cons_cons]
        exact ih hc' (by simp)

/-- Claim C7: for a route polyline with at least two vertices (and
positive consecutive segment distances), the sampler emits exactly
`max(10, ceil(length_m / 25)) + 1` points, the `i`-th placed at fraction
`i / sampleCount` of the arc length, including the first and the last
vertex. -/
theorem c7_sampler_spec (turfD : Point → Point → ℚ) (coordinates : List Point)
    (p q : Point) (rest : List Point) (heq : coordinates = p :: q :: rest)
    (hpos : List.Chain' (fun a b => 0 < turfD a b) coordinates) :
    (routeSamplePoints turfD coordinates).length = sampleCountOf turfD coordinates + 1
    ∧ sampleCountOf turfD coordinates
        = max 10 (Int.ceil (lineLength turfD coordinates * 1000 / 25)).toNat
    ∧ (routeSamplePoints turfD coordinates).head? = some p
    ∧ (routeSamplePoints turfD coordinates).getLast? = coordinates.getLast?
    ∧ ∀ i, i < sampleCountOf turfD coordinates + 1 →
        (routeSamplePoints turfD coordinates)[i]? = some (along turfD coordinates
          (lineLength turfD coordinates
            * ((i : ℚ) / (sampleCountOf turfD coordinates : ℚ)))) := by
  subst heq
  refine ⟨by simp [routeSamplePoints], rfl, ?_, ?_, ?_⟩
  · rw [show routeSamplePoints turfD (p :: q :: rest)
        = (List.range (sampleCountOf turfD (p :: q :: rest) + 1)).map
            (fun i : ℕ => along turfD (p :: q :: rest)
              (lineLength turfD (p :: q :: rest)
                * ((i : ℚ) / (sampleCountOf turfD (p :: q :: rest) : ℚ)))) from rfl]
    rw [List.range_succ_eq_map, List.map_cons, List.head?_cons]
    have hpq : 0 < turfD p q := (List.chain'_cons.mp hpos).1
    rw [show ((0 : ℕ) : ℚ) = 0 from rfl, zero_div, mul_zero, along_zero turfD p q rest hpq]
  · rw [show routeSamplePoints turfD (p :: q :: rest)
        = (List.range (sampleCountOf turfD (p :: q :: rest) + 1)).map
            (fun i : ℕ => along turfD (p :: q :: rest)
              (lineLength turfD (p :: q :: rest)
                * ((i : ℚ) / (sampleCountOf turfD (p :: q :: rest) : ℚ)))) from rfl]
    rw [List.range_succ, List.map_append, List.map_cons, List.map_nil,
      List.getLast?_concat]
    have hn : ((sampleCountOf turfD (p :: q :: rest) : ℕ) : ℚ) ≠ 0 := by
      have h10 : 10 ≤ sampleCountOf turfD (p :: q :: rest) := le_max_left _ _
      exact Nat.cast_ne_zero.mpr (by omega)
    rw [div_self hn, mul_one]
    exact (along_lineLength turfD (p :: q :: rest) hpos (by simp)).symm
  · intro i hi
    rw [show routeSamplePoints turfD (p :: q :: rest)
        = (List.range (sampleCountOf turfD (p :: q :: rest) + 1)).map
            (fun i : ℕ => along turfD (p :: q :: rest)
              (lineLength turfD (p :: q :: rest)
                * ((i : ℚ) / (sampleCountOf turfD (p :: q :: rest) : ℚ)))) from rfl]
    rw [List.getElem?_map, List.getElem?_range hi]
    rfl

/-- Witness segment-distance kernel for the sampler: taxicab length, in
kilometers. -/
def turfDOne : Point → Point → ℚ := fun a b => |b.1 - a.1| + |b.2 - a.2|

/-- Witness for C7 on the concrete two-vertex polyline from the origin. -/
theorem c7_witness :
    List.Chain' (fun a b => 0 < turfDOne a b) [((0:ℚ), (0:ℚ)), (1, 0)]
    ∧ (routeSamplePoints turfDOne [((0:ℚ), (0:ℚ)), (1, 0)]).head? = some (0, 0) :=
  ⟨by norm_num [List.chain'_cons, turfDOne],
   (c7_sampler_spec turfDOne [((0:ℚ), (0:ℚ)), (1, 0)] (0, 0) (1, 0) [] rfl
     (by norm_num [List.chain'_cons, turfDOne])).2.2.1⟩

/-! ## C10: the nearest-shelter query is only window-approximate -/

/-- `arctan` is below the identity on nonnegative arguments. -/
lemma arctan_le_self (x : ℝ) (hx : 0 ≤ x) : Real.arctan x ≤ x := by
  rcases eq_or_lt_of_le hx with h | h
  · rw [← h, Real.arctan_zero]
  · have h1 : 0 < Real.arctan x := by
      rw [← Real.arctan_zero]
      exact Real.arctan_strictMono h
    have h2 := Real.arctan_lt_pi_div_two x
    have h3 := Real.lt_tan h1 h2
    rw [Real.tan_arctan] at h3
    exact h3.le

/-- The haversine distance from (32, 0) to shelter A at (32.001, 0): on a
common meridian the formula collapses to `R * dLat` in radians. -/
lemma havA_step1 : haversineDistance 32 0 (32001/1000) 0
    = 6371000 * (2 * atan2
        (Real.sqrt (Real.sin (Real.pi/360000) * Real.sin (Real.pi/360000)))
        (Real.sqrt (1 - Real.sin (Real.pi/360000) * Real.sin (Real.pi/360000)))) := by
  simp only [haversineDistance, toRad]
  push_cast
  norm_num [Real.sin_zero]
  ring_nf

/-- Exact value of the distance to shelter A. -/
lemma havA_eq : haversineDistance 32 0 (32001/1000) 0
    = 6371000 * (2 * (Real.pi/360000)) := by
  rw [havA_step1]
  have hpi := Real.pi_pos
  have hθpos : 0 < Real.pi/360000 := by positivity
  have hθlt : Real.pi/360000 < Real.pi/2 := by nlinarith
  have hsin_nonneg : 0 ≤ Real.sin (Real.pi/360000) :=
    Real.sin_nonneg_of_nonneg_of_le_pi hθpos.le (by nlinarith)
  have hcos_pos : 0 < Real.cos (Real.pi/360000) :=
    Real.cos_pos_of_mem_Ioo (Set.mem_Ioo.mpr ⟨by nlinarith, hθlt⟩)
  rw [Real.sqrt_mul_self hsin_nonneg]
  have h1 : 1 - Real.sin (Real.pi/360000) * Real.sin (Real.pi/360000)
      = Real.cos (Real.pi/360000) * Real.cos (Real.pi/360000) := by
    nlinarith [Real.sin_sq_add_cos_sq (Real.pi/360000)]
  rw [h1, Real.sqrt_mul_self hcos_pos.le]
  rw [atan2, if_pos hcos_pos]
  rw [← Real.tan_eq_sin_div_cos, Real.arctan_tan (by nlinarith) hθlt]

/-- The haversine distance from (32, 0) to shelter B at (32, 0.0011):
on a common parallel the formula keeps the `cos * cos` factor. -/
lemma havB_step1 : haversineDistance 32 0 32 (11/10000)
    = 6371000 * (2 * atan2
        (Real.sqrt (Real.cos (32*(Real.pi/180)) * Real.cos (32*(Real.pi/180))
          * Real.sin (11*Real.pi/3600000) * Real.sin (11*Real.pi/3600000)))
        (Real.sqrt (1 - Real.cos (32*(Real.pi/180)) * Real.cos (32*(Real.pi/180))
          * Real.sin (11*Real.pi/3600000) * Real.sin (11*Real.pi/3600000)))) := by
  simp only [haversineDistance, toRad]
  push_cast
  norm_num [Real.sin_zero]
  ring_nf

/-- Numeric bound: `cos 32° < 0.8492`. -/
lemma cos32_lt : Real.cos (32*(Real.pi/180)) < 8492/10000 := by
  have hz1 : (3.1415 : ℝ) < Real.pi := Real.pi_gt_d4
  have hz2 : Real.pi < 3.1416 := Real.pi_lt_d4
  set z := 32*(Real.pi/180) with hz
  have hzlo : (0.5584 : ℝ) ≤ z := by rw [hz]; nlinarith
  have hzhi : z ≤ 0.5586 := by rw [hz]; nlinarith
  have habs : |z| ≤ 1 := by rw [abs_of_nonneg (by linarith)]; linarith
  have hcb := (abs_le.mp (Real.cos_bound habs)).2
  rw [abs_of_nonneg (by linarith : (0:ℝ) ≤ z)] at hcb
  have hz2lo : (0.31181 : ℝ) ≤ z^2 := by nlinarith
  have hz2hi : z^2 ≤ (0.312034 : ℝ) := by nlinarith
  have hz4hi : z^4 ≤ (0.09737 : ℝ) := by
    nlinarith [mul_le_mul hz2hi hz2hi (sq_nonneg z) (by norm_num : (0:ℝ) ≤ 0.312034)]
  nlinarith

/-- Shelter B is strictly closer to the query (32, 0) than shelter A,
even though only A lies in the first search window: 0.0011 degrees of
longitude at latitude 32 cover fewer meters than 0.001 degrees of
latitude. -/
lemma havB_lt : haversineDistance 32 0 32 (11/10000)
    < 6371000 * (2 * (Real.pi/360000)) := by
  rw [havB_step1]
  have hpi := Real.pi_pos
  have hpi4 : Real.pi < 3.1416 := Real.pi_lt_d4
  set z := 32*(Real.pi/180) with hz
  set θ := 11*Real.pi/3600000 with hθ
  have hθpos : 0 < θ := by rw [hθ]; positivity
  have hθhi : θ ≤ 0.00001 := by rw [hθ]; nlinarith
  have hθpi : θ ≤ Real.pi := by rw [hθ]; nlinarith
  have hsin_nonneg : 0 ≤ Real.sin θ := Real.sin_nonneg_of_nonneg_of_le_pi hθpos.le hθpi
  have hsin_le : Real.sin θ ≤ θ := (Real.sin_lt hθpos).le
  have hcos_pos : 0 < Real.cos z := by
    apply Real.cos_pos_of_mem_Ioo (Set.mem_Ioo.mpr ⟨?_, ?_⟩)
    · rw [hz]; nlinarith
    · rw [hz]; nlinarith
  have hu_nonneg : 0 ≤ Real.cos z * Real.sin θ := mul_nonneg hcos_pos.le hsin_nonneg
  rw [show Real.cos z * Real.cos z * Real.sin θ * Real.sin θ
      = (Real.cos z * Real.sin θ) * (Real.cos z * Real.sin θ) from by ring]
  rw [Real.sqrt_mul_self hu_nonneg]
  have hu_le_θ : Real.cos z * Real.sin θ ≤ θ := by
    calc Real.cos z * Real.sin θ ≤ 1 * θ :=
          mul_le_mul (Real.cos_le_one z) hsin_le hsin_nonneg (by norm_num)
      _ = θ := one_mul θ
  have huu : (Real.cos z * Real.sin θ) * (Real.cos z * Real.sin θ) ≤ (199/10000 : ℝ) := by
    have h1 : (Real.cos z * Real.sin θ) * (Real.cos z * Real.sin θ) ≤ θ * θ :=
      mul_self_le_mul_self hu_nonneg hu_le_θ
    nlinarith
  have hx_lo : (99/100 : ℝ) ≤
      Real.sqrt (1 - (Real.cos z * Real.sin θ) * (Real.cos z * Real.sin θ)) := by
    rw [Real.le_sqrt (by norm_num) (by nlinarith)]
    nlinarith
  have hx_pos : (0:ℝ) <
      Real.sqrt (1 - (Real.cos z * Real.sin θ) * (Real.cos z * Real.sin θ)) :=
    lt_of_lt_of_le (by norm_num) hx_lo
  rw [atan2, if_pos hx_pos]
  have hcos_lt := cos32_lt
  rw [← hz] at hcos_lt
  have hu_le : Real.cos z * Real.sin θ ≤ (8492/10000) * θ :=
    mul_le_mul hcos_lt.le hsin_le hsin_nonneg (by norm_num)
  have hdiv_nonneg : 0 ≤ Real.cos z * Real.sin θ /
      Real.sqrt (1 - (Real.cos z * Real.sin θ) * (Real.cos z * Real.sin θ)) :=
    div_nonneg hu_nonneg hx_pos.le
  have harc := arctan_le_self _ hdiv_nonneg
  have hux : Real.cos z * Real.sin θ /
      Real.sqrt (1 - (Real.cos z * Real.sin θ) * (Real.cos z * Real.sin θ))
      < Real.pi/360000 := by
    rw [div_lt_iff₀ hx_pos]
    have hθA : θ = (11/10) * (Real.pi/360000) := by rw [hθ]; ring
    nlinarith [hx_lo, hu_le]
  nlinarith [harc, hux]

/-- Claim C10: `getNearestShelter` is only window-approximate.  With
shelters A (inside the first 0.001 degree window of the query (32, 0))
and B (just outside it, at 0.0011 degrees of longitude), the query
returns A, yet B — a member of the collection — is strictly closer by
the haversine distance. -/
theorem c10_window_approximate :
    (ShelterSpatialIndex.mk [shelterA, shelterB]).getNearestShelter
        haversineDistance 32 0 = some shelterA
    ∧ shelterB ∈ (ShelterSpatialIndex.mk [shelterA, shelterB]).shelters
    ∧ haversineDistance 32 0 shelterB.lat shelterB.lon
        < haversineDistance 32 0 shelterA.lat shelterA.lon := by
  refine ⟨?_, by simp, ?_⟩
  · have hsearch : (ShelterSpatialIndex.mk [shelterA, shelterB]).search
        (0 - 1/1000) (32 - 1/1000) (0 + 1/1000) (32 + 1/1000) = [shelterA] := by
      simp only [ShelterSpatialIndex.search, shelterA, shelterB, List.filter,
        decide_eq_true_eq]
      norm_num
    simp only [ShelterSpatialIndex.getNearestShelter, searchRadii,
      getNearestShelterGo, hsearch]
    rw [if_neg (by simp)]
    simp only [nearestLoop]
    rw [if_pos (WithTop.coe_lt_top _)]
  · show haversineDistance 32 0 32 (11/10000)
        < haversineDistance 32 0 (32001/1000) 0
    rw [havA_eq]
    exact havB_lt
